import Mathlib

/-!
Verification development for the FXRP gasless payment relayer
(`src/relayer/index.ts`, with the contract in
`src/contracts/GaslessPaymentForwarder.sol` and the signing utility in
`src/client/signer.ts`).

The relayer is an async pipeline over a JSON-RPC ledger client.  We embed it
shallowly: every asynchronous read the relayer performs is a field of an
environment structure (`LedgerEnv` / `ValidationEnv` / `BatchEnv`) holding the
value that read returned, and every network operation the relayer issues is
recorded in an explicit trace of `NetOp` values.  External pure library
functions (ethers `getAddress`, `BigInt` parsing, viem
`recoverTypedDataAddress`, the typechain error-catalog decoder) are
parameters collected in `ExtFns`, since their implementations live outside this
repository; `formatUnits` is implemented here because the spec constrains the
decimal rendering it produces.  Errors thrown by the TypeScript code become
constructors of `RelayError`, each carrying exactly the data interpolated
into the corresponding `Error` message; `errorMessage` renders the message
strings themselves.
-/

set_option maxRecDepth 16384

/-- EIP-712 domain as built by the relayer: fixed name and version
("GaslessPaymentForwarder" / "1"), live chain id, configured forwarder
address (`src/relayer/index.ts` lines 24-27 and 136-140). -/
structure Eip712Domain where
  name : String
  version : String
  chainId : Nat
  verifyingContract : String
deriving DecidableEq, Repr

/-- The EIP-712 message the relayer reconstructs for verification:
{from, to, amount, fee, nonce, deadline} (`src/relayer/index.ts` lines
141-148, matching PAYMENT_REQUEST_TYPES). -/
structure PaymentMessage where
  «from» : String
  «to» : String
  amount : Nat
  fee : Nat
  nonce : Nat
  deadline : Nat
deriving DecidableEq, Repr

/-- Raw inbound payment request (the `PaymentRequest` interface of
`src/relayer/index.ts` lines 63-70): addresses and integers arrive as
strings, the deadline as a number. -/
structure PaymentRequest where
  «from» : String
  «to» : String
  amount : String
  fee : String
  deadline : Nat
  signature : String
deriving DecidableEq, Repr

/-- A payment request after the relayer's normalization step has parsed its
fields (lines 113-131): checksummed addresses, numeric amount and fee,
canonical 0x-prefixed signature. -/
structure ParsedPaymentRequest where
  «from» : String
  «to» : String
  amount : Nat
  fee : Nat
  deadline : Nat
  signature : String
deriving DecidableEq, Repr

/-- The shape of a thrown JavaScript error object as inspected by the
relayer's diagnostics: `message`, optional `reason`, optional `data`
(raw revert bytes as hex), optional `revert.name` (structured error name).
Absent/empty JS fields are modelled as `none`. -/
structure JsError where
  message : String
  reason : Option String
  data : Option String
  revertName : Option String
deriving DecidableEq, Repr

/-- A transaction fetched back from the chain by hash
(`provider.getTransaction`), as used by `enrichRevertErrorAsync`:
only its calldata matters. -/
structure TxData where
  data : String
deriving DecidableEq, Repr

/-- A transaction receipt as consumed by the relayer:
`receipt.blockNumber` and `receipt?.gasUsed` (the code guards `gasUsed`
with optional chaining, so it is modelled as optional). -/
structure Receipt where
  blockNumber : Nat
  gasUsed : Option Nat
deriving DecidableEq, Repr

/-- Every network operation the relayer can issue against the ledger,
in the order the code performs them.  `submit` and `submitBatch` are the
only writes; they record the gas ceiling sent with the transaction. -/
inductive NetOp where
  | getNetwork
  | getNonce
  | getBlock
  | getFxrpAddress
  | getDecimals
  | getBalance
  | getAllowance
  | getRelayerFee
  | staticCall
  | estimateGas
  | submit (gasLimit : Nat)
  | submitBatch (gasLimit : Nat) (count : Nat)
  | waitReceipt
  | getTransaction
deriving DecidableEq, Repr

/-- The reads issued while validating a single request
(`GaslessRelayer.validateRequest`, lines 295-339). -/
def NetOp.isValidationRead : NetOp → Bool
  | .getBlock => true
  | .getFxrpAddress => true
  | .getDecimals => true
  | .getBalance => true
  | .getAllowance => true
  | .getRelayerFee => true
  | _ => false

/-- Submission writes (single or batch). -/
def NetOp.isSubmission : NetOp → Bool
  | .submit _ => true
  | .submitBatch _ _ => true
  | _ => false

/-- Error taxonomy of the relayer.  Each constructor corresponds to one
`throw new Error(...)` site in `src/relayer/index.ts` and carries exactly
the values interpolated into that message. -/
inductive RelayError where
  | malformedRequest (msg : String)
  | invalidSignatureFormat (msg : String)
  | signerMismatch (recovered : String) (expected : String)
      (chainId : Nat) (nonce : Nat)
  | requestExpired (deadline : Nat) (chainTime : Nat)
  | insufficientBalance (required : Nat) (available : Nat) (decimals : Nat)
  | insufficientAllowance (required : Nat) (approved : Nat) (decimals : Nat)
  | feeTooLow (minFee : Nat) (decimals : Nat)
  | simulationFailed (msg : String)
  | counterRaceLost (nonceWas : Nat) (nonceNow : Nat)
  | estimationFailed (msg : String)
  | submissionFailed (msg : String)
  | finalityWaitFailed (msg : String)
  | rawError (msg : String)
deriving DecidableEq, Repr

/-- Result of a successful single execution (`ExecuteResult`,
lines 72-77). -/
structure ExecuteResult where
  success : Bool
  transactionHash : String
  blockNumber : Option Nat
  gasUsed : String
deriving DecidableEq, Repr

/-- Result of a successful batch execution (`BatchExecuteResult`,
lines 79-81). -/
structure BatchExecuteResult where
  success : Bool
  transactionHash : String
  blockNumber : Option Nat
  gasUsed : String
  paymentsProcessed : Nat
deriving DecidableEq, Repr

/-- Relayer configuration (the part the pipeline reads):
the forwarder contract address (`RelayerConfig`, lines 57-61). -/
structure RelayerConfig where
  forwarderAddress : String
deriving DecidableEq, Repr

/-- External pure library functions used by the relayer, passed in as
parameters since their implementations live outside this repository:
`ethers.getAddress` (checksummed address or throw), `BigInt` string parsing,
viem `recoverTypedDataAddress` (recovered address, or throw carrying a
message), and the typechain `Interface.parseError` error-catalog decoder
(structured error name for revert data, or null/throw). -/
structure ExtFns where
  getAddress : String → Option String
  parseBigInt : String → Option Nat
  recover : Eip712Domain → PaymentMessage → String → Except String String
  decodeError : String → Option String

/-- The results of the reads `validateRequest` performs:
latest block timestamp (null block falls back to local wall clock),
token decimals, sender balance, sender→forwarder allowance, minimum
relayer fee. -/
structure ValidationEnv where
  blockTimestamp : Option Nat
  localTime : Nat
  decimals : Nat
  balance : Nat
  allowance : Nat
  minFee : Nat

/-- The results of all the ledger interactions of one `executePayment`
run, in pipeline order: chain id, first nonce read, validation reads,
dry-run outcome, nonce re-read, gas estimate, send outcome (tx hash on
success), wait outcome (receipt, possibly null), and the fetch-by-hash
used for post-mortem diagnosis. -/
structure LedgerEnv where
  chainId : Nat
  nonce1 : Nat
  val : ValidationEnv
  simResult : Except JsError Unit
  nonce2 : Nat
  estimate : Except String Nat
  sendResult : Except JsError String
  waitResult : Except JsError (Option Receipt)
  fetchTx : Except String (Option TxData)

/-- The ledger interactions of one `executeBatchPayments` run: per-item
validation reads (indexed by item position), send outcome, wait outcome. -/
structure BatchEnv where
  venv : Nat → ValidationEnv
  sendResult : Except String String
  waitResult : Except String (Option Receipt)

/-- JavaScript `s.startsWith(pre)` (structurally, over the character
list). -/
def strStartsWith (s pre : String) : Bool :=
  pre.toList.isPrefixOf s.toList

/-- JavaScript `s.toLowerCase()` for the ASCII strings handled here
(structurally, over the character list). -/
def toLowerCase (s : String) : String :=
  String.mk (s.toList.map Char.toLower)

/-- Left-pad a digit string with zeros to the given width
(ethers pads the value string so a whole component always exists). -/
def padZeros (s : String) (n : Nat) : String :=
  String.mk (List.replicate (n - s.length) '0') ++ s

/-- Strip trailing zero characters. -/
def trimTrailingZeros (s : String) : String :=
  String.mk ((s.toList.reverse.dropWhile (fun c => c = '0')).reverse)

/-- `ethers.formatUnits` for non-negative values: render `value` as a
decimal string with the radix point `decimals` digits from the right,
trailing fractional zeros trimmed but at least one fractional digit kept
(no fractional part at all when `decimals = 0`). -/
def formatUnits (value : Nat) (decimals : Nat) : String :=
  if decimals = 0 then toString value
  else
    let whole := value / 10 ^ decimals
    let frac := trimTrailingZeros (padZeros (toString (value % 10 ^ decimals)) decimals)
    toString whole ++ "." ++ (if frac = "" then "0" else frac)

/-- Render a `RelayError` as the message string the TypeScript code builds
for the corresponding `throw new Error(...)`. -/
def errorMessage : RelayError → String
  | .malformedRequest m => m
  | .invalidSignatureFormat m => "Invalid signature format: " ++ m
  | .signerMismatch recovered expected chainId nonce =>
      "Signature invalid: recovered " ++ recovered ++ " but expected " ++
        expected ++ ". Check chainId (expected " ++ toString chainId ++
        "), forwarder address, and nonce (expected " ++ toString nonce ++ ")."
  | .requestExpired deadline chainTime =>
      "Payment request has expired (deadline: " ++ toString deadline ++
        ", chain: " ++ toString chainTime ++ ")"
  | .insufficientBalance required available decimals =>
      "Insufficient FXRP balance. Required: " ++ formatUnits required decimals ++
        ", Available: " ++ formatUnits available decimals
  | .insufficientAllowance required approved decimals =>
      "Insufficient FXRP allowance. Required: " ++ formatUnits required decimals ++
        ", Approved: " ++ formatUnits approved decimals
  | .feeTooLow minFee decimals =>
      "Fee too low. Minimum: " ++ formatUnits minFee decimals ++ " FXRP"
  | .simulationFailed m => "Contract simulation failed: " ++ m
  | .counterRaceLost nonceWas nonceNow =>
      "Nonce changed (was " ++ toString nonceWas ++ ", now " ++
        toString nonceNow ++
        "). Payment may have been submitted by another request. Please create a new payment request."
  | .estimationFailed m =>
      "Gas estimation failed (contract would revert): " ++ m
  | .submissionFailed m => m
  | .finalityWaitFailed m => m
  | .rawError m => m

/-- Message selection in the dry-run catch block (lines 183-189):
`err.reason || (err.data ? "revert data: " + err.data : err.message)`. -/
def simFailMsg (e : JsError) : String :=
  match e.reason with
  | some r => r
  | none =>
    match e.data with
    | some d => "revert data: " ++ d
    | none => e.message

/-- `GaslessRelayer.parseRevertReason` (lines 382-401): prefer the
structured error name carried on the failure; else, if raw revert data
bytes are present as a 0x-hex string, try to decode them against the
forwarder's error catalog (a decoder throw or null result is swallowed);
else keep the raw message. -/
def parseRevertReason (decodeError : String → Option String) (e : JsError) : String :=
  match e.revertName with
  | some n => "Contract reverted: " ++ n
  | none =>
    match e.data with
    | some d =>
      if strStartsWith d "0x" then
        match decodeError d with
        | some n => "Contract reverted: " ++ n
        | none => e.message
      else e.message
    | none => e.message

/-- `GaslessRelayer.enrichRevertError` (lines 344-354): wrap the parsed
revert reason as "<phase> failed: <msg>", with an explorer hint only when a
transaction hash is available. -/
def enrichRevertError (decodeError : String → Option String) (e : JsError)
    (phase : String) (txHash : Option String) : String :=
  let msg := parseRevertReason decodeError e
  let hint :=
    match txHash with
    | some h => " Inspect tx: https://coston2-explorer.flare.network/tx/" ++ h
    | none => ""
  phase ++ " failed: " ++ msg ++ hint

/-- `GaslessRelayer.enrichRevertErrorAsync` (lines 359-380): parse the
revert reason, then try to fetch the transaction by hash to report whether
its calldata was empty (relayer bug signal) or its length; a failed fetch is
ignored and leaves the message unchanged; always append the explorer hint. -/
def enrichRevertErrorAsync (decodeError : String → Option String)
    (fetchTx : Except String (Option TxData)) (e : JsError)
    (phase : String) (txHash : String) : String :=
  let msg := parseRevertReason decodeError e
  let msg2 :=
    match fetchTx with
    | .error _ => msg
    | .ok none => msg ++ " [TX had no calldata - relayer bug]"
    | .ok (some t) =>
      if t.data = "0x" then msg ++ " [TX had no calldata - relayer bug]"
      else msg ++ " [calldata length: " ++ toString t.data.length ++ " chars]"
  phase ++ " failed: " ++ msg2 ++
    " Inspect tx: https://coston2-explorer.flare.network/tx/" ++ txHash

/-- `receipt?.gasUsed?.toString() ?? "0"`. -/
def gasUsedString (receipt : Option Receipt) : String :=
  match receipt with
  | none => "0"
  | some rc =>
    match rc.gasUsed with
    | none => "0"
    | some g => toString g

/-- The normalization step of `executePayment` (lines 112-131): checksum
both addresses, parse amount and fee as integers, reject a signature
shorter than 130 characters, and 0x-prefix the signature if needed.  Each
parse failure is a throw before any network call. -/
def normalizeRequest (ext : ExtFns) (request : PaymentRequest) :
    Except RelayError ParsedPaymentRequest :=
  match ext.getAddress request.«from» with
  | none => .error (.malformedRequest "invalid from address")
  | some f =>
    match ext.getAddress request.«to» with
    | none => .error (.malformedRequest "invalid to address")
    | some t =>
      match ext.parseBigInt request.amount with
      | none => .error (.malformedRequest "Cannot convert amount to a BigInt")
      | some amount =>
        match ext.parseBigInt request.fee with
        | none => .error (.malformedRequest "Cannot convert fee to a BigInt")
        | some fee =>
          if request.signature.length < 130 then
            .error (.malformedRequest "Invalid signature: must be a hex string")
          else
            let signature :=
              if strStartsWith request.signature "0x" then request.signature
              else "0x" ++ request.signature
            .ok ⟨f, t, amount, fee, request.deadline, signature⟩

/-- `GaslessRelayer.validateRequest` (lines 295-339): read the latest block
(falling back to the local clock if the block is null) and fail if
`deadline <= chainTime`; read the token address and decimals, then the
balance, failing if `balance < amount + fee`; read the allowance, failing
if `allowance < amount + fee`; read the minimum relayer fee, failing if
`fee < minFee`.  Returns the outcome together with the reads performed. -/
def validateRequest (env : ValidationEnv) (r : ParsedPaymentRequest) :
    Except RelayError Unit × List NetOp :=
  if r.deadline ≤ env.blockTimestamp.getD env.localTime then
    (.error (.requestExpired r.deadline (env.blockTimestamp.getD env.localTime)),
     [.getBlock])
  else if env.balance < r.amount + r.fee then
    (.error (.insufficientBalance (r.amount + r.fee) env.balance env.decimals),
     [.getBlock, .getFxrpAddress, .getDecimals, .getBalance])
  else if env.allowance < r.amount + r.fee then
    (.error (.insufficientAllowance (r.amount + r.fee) env.allowance env.decimals),
     [.getBlock, .getFxrpAddress, .getDecimals, .getBalance, .getAllowance])
  else if r.fee < env.minFee then
    (.error (.feeTooLow env.minFee env.decimals),
     [.getBlock, .getFxrpAddress, .getDecimals, .getBalance, .getAllowance,
      .getRelayerFee])
  else
    (.ok (),
     [.getBlock, .getFxrpAddress, .getDecimals, .getBalance, .getAllowance,
      .getRelayerFee])

/-- The submission pipeline of `executePayment` after validation
(lines 173-252): dry-run the call (`SimulationFailed` on revert), re-read
the nonce and fail with the nonce-race error if it changed, estimate gas
and take `estimated * 130 / 100` as the gas limit, send with that limit
(diagnosing a send failure synchronously), and wait for the receipt
(diagnosing a wait failure with the async enrichment that fetches the
transaction back by hash). -/
def submitPipeline (ext : ExtFns) (env : LedgerEnv) :
    Except RelayError ExecuteResult × List NetOp :=
  match env.simResult with
  | .error e => (.error (.simulationFailed (simFailMsg e)), [.staticCall])
  | .ok _ =>
    if env.nonce2 ≠ env.nonce1 then
      (.error (.counterRaceLost env.nonce1 env.nonce2), [.staticCall, .getNonce])
    else
      match env.estimate with
      | .error m =>
        (.error (.estimationFailed m), [.staticCall, .getNonce, .estimateGas])
      | .ok estimated =>
        let gasLimit := estimated * 130 / 100
        match env.sendResult with
        | .error se =>
          (.error (.submissionFailed
             (enrichRevertError ext.decodeError se "sendTransaction" none)),
           [.staticCall, .getNonce, .estimateGas, .submit gasLimit])
        | .ok txHash =>
          match env.waitResult with
          | .error we =>
            (.error (.finalityWaitFailed
               (enrichRevertErrorAsync ext.decodeError env.fetchTx we
                 "transaction" txHash)),
             [.staticCall, .getNonce, .estimateGas, .submit gasLimit,
              .waitReceipt, .getTransaction])
          | .ok receipt =>
            (.ok ⟨true, txHash, receipt.map Receipt.blockNumber,
                  gasUsedString receipt⟩,
             [.staticCall, .getNonce, .estimateGas, .submit gasLimit,
              .waitReceipt])

/-- `GaslessRelayer.executePayment` (lines 111-253): normalize the request
(no network call yet), read the chain id and the sender's nonce, rebuild
the EIP-712 domain (fixed name/version, live chain id, checksummed
configured forwarder address) and message (normalized fields plus the nonce
just read), recover the signer (`InvalidSignatureFormat` on a recovery
throw), compare recovered and claimed sender case-insensitively
(`SignerMismatch` carrying recovered, expected, chain id and nonce), run
`validateRequest`, then the submission pipeline. -/
def executePayment (ext : ExtFns) (cfg : RelayerConfig) (env : LedgerEnv)
    (request : PaymentRequest) :
    Except RelayError ExecuteResult × List NetOp :=
  match normalizeRequest ext request with
  | .error e => (.error e, [])
  | .ok p =>
    match ext.getAddress cfg.forwarderAddress with
    | none =>
      (.error (.malformedRequest "invalid forwarder address"),
       [.getNetwork, .getNonce])
    | some fwd =>
      let domain : Eip712Domain :=
        ⟨"GaslessPaymentForwarder", "1", env.chainId, fwd⟩
      let message : PaymentMessage :=
        ⟨p.«from», p.«to», p.amount, p.fee, env.nonce1, p.deadline⟩
      match ext.recover domain message p.signature with
      | .error m =>
        (.error (.invalidSignatureFormat m), [.getNetwork, .getNonce])
      | .ok recovered =>
        if toLowerCase recovered ≠ toLowerCase p.«from» then
          (.error (.signerMismatch recovered p.«from» env.chainId env.nonce1),
           [.getNetwork, .getNonce])
        else
          let v := validateRequest env.val p
          match v.1 with
          | .error e => (.error e, NetOp.getNetwork :: NetOp.getNonce :: v.2)
          | .ok _ =>
            let w := submitPipeline ext env
            (w.1, NetOp.getNetwork :: NetOp.getNonce :: (v.2 ++ w.2))

/-- The validation loop of `executeBatchPayments` (lines 261-264): validate
every request in order, stopping at (and propagating) the first failure;
each item's reads hit fresh ledger state, indexed here by item position. -/
def validateAll (venv : Nat → ValidationEnv) (i : Nat) :
    List ParsedPaymentRequest → Except RelayError Unit × List NetOp
  | [] => (.ok (), [])
  | r :: rest =>
    let v := validateRequest (venv i) r
    match v.1 with
    | .error e => (.error e, v.2)
    | .ok _ =>
      let w := validateAll venv (i + 1) rest
      (w.1, v.2 ++ w.2)

/-- `GaslessRelayer.executeBatchPayments` (lines 258-290): validate every
request, then submit all of them as a single transaction with
`gasLimit = 100000 * requests.length` (no per-item dry-run, no gas
estimation, no nonce re-read), wait for the receipt, and report
`paymentsProcessed = requests.length`.  Send and wait failures propagate
undiagnosed (there is no catch around them in the batch path). -/
def executeBatchPayments (benv : BatchEnv)
    (requests : List ParsedPaymentRequest) :
    Except RelayError BatchExecuteResult × List NetOp :=
  let v := validateAll benv.venv 0 requests
  match v.1 with
  | .error e => (.error e, v.2)
  | .ok _ =>
    let gasLimit := 100000 * requests.length
    match benv.sendResult with
    | .error m =>
      (.error (.rawError m), v.2 ++ [.submitBatch gasLimit requests.length])
    | .ok txHash =>
      match benv.waitResult with
      | .error m =>
        (.error (.rawError m),
         v.2 ++ [.submitBatch gasLimit requests.length, .waitReceipt])
      | .ok receipt =>
        (.ok ⟨true, txHash, receipt.map Receipt.blockNumber,
              gasUsedString receipt, requests.length⟩,
         v.2 ++ [.submitBatch gasLimit requests.length, .waitReceipt])

/-! ## Helper lemmas -/

theorem validateRequest_ops_reads (env : ValidationEnv) (r : ParsedPaymentRequest) :
    ∀ op ∈ (validateRequest env r).2, op.isValidationRead = true := by
  unfold validateRequest
  repeat' split
  all_goals simp [List.forall_mem_cons, NetOp.isValidationRead]

theorem validateRequest_no_signerMismatch (env : ValidationEnv)
    (r : ParsedPaymentRequest) (a b : String) (c d : Nat) :
    (validateRequest env r).1 ≠ .error (.signerMismatch a b c d) := by
  unfold validateRequest
  repeat' split
  all_goals simp

theorem submitPipeline_no_signerMismatch (ext : ExtFns) (env : LedgerEnv)
    (a b : String) (c d : Nat) :
    (submitPipeline ext env).1 ≠ .error (.signerMismatch a b c d) := by
  unfold submitPipeline
  repeat' split
  all_goals simp

theorem submitPipeline_no_insufficientAllowance (ext : ExtFns) (env : LedgerEnv)
    (x y z : Nat) :
    (submitPipeline ext env).1 ≠ .error (.insufficientAllowance x y z) := by
  unfold submitPipeline
  repeat' split
  all_goals simp

theorem validateRequest_no_insufficientAllowance_of_ge (env : ValidationEnv)
    (r : ParsedPaymentRequest) (h : r.amount + r.fee ≤ env.allowance) (x y z : Nat) :
    (validateRequest env r).1 ≠ .error (.insufficientAllowance x y z) := by
  unfold validateRequest
  split
  · simp
  · split
    · simp
    · split
      · exact absurd ‹env.allowance < r.amount + r.fee› (Nat.not_lt.mpr h)
      · split <;> simp

theorem validateRequest_expired (env : ValidationEnv) (r : ParsedPaymentRequest)
    (h : r.deadline ≤ env.blockTimestamp.getD env.localTime) :
    validateRequest env r =
      (.error (.requestExpired r.deadline (env.blockTimestamp.getD env.localTime)),
       [.getBlock]) := by
  unfold validateRequest
  rw [if_pos h]

theorem validateRequest_ok (env : ValidationEnv) (r : ParsedPaymentRequest)
    (h1 : env.blockTimestamp.getD env.localTime < r.deadline)
    (h2 : r.amount + r.fee ≤ env.balance)
    (h3 : r.amount + r.fee ≤ env.allowance)
    (h4 : env.minFee ≤ r.fee) :
    validateRequest env r =
      (.ok (), [.getBlock, .getFxrpAddress, .getDecimals, .getBalance,
                .getAllowance, .getRelayerFee]) := by
  unfold validateRequest
  rw [if_neg (Nat.not_le.mpr h1), if_neg (Nat.not_lt.mpr h2),
      if_neg (Nat.not_lt.mpr h3), if_neg (Nat.not_lt.mpr h4)]

theorem validateRequest_allowance_fail (env : ValidationEnv) (r : ParsedPaymentRequest)
    (h1 : env.blockTimestamp.getD env.localTime < r.deadline)
    (h2 : r.amount + r.fee ≤ env.balance)
    (h3 : env.allowance < r.amount + r.fee) :
    validateRequest env r =
      (.error (.insufficientAllowance (r.amount + r.fee) env.allowance env.decimals),
       [.getBlock, .getFxrpAddress, .getDecimals, .getBalance, .getAllowance]) := by
  unfold validateRequest
  rw [if_neg (Nat.not_le.mpr h1), if_neg (Nat.not_lt.mpr h2), if_pos h3]

theorem validateRequest_sig_irrelevant (env : ValidationEnv)
    (r : ParsedPaymentRequest) (s : String) :
    validateRequest env { r with signature := s } = validateRequest env r := rfl

theorem executePayment_eq (ext : ExtFns) (cfg : RelayerConfig) (env : LedgerEnv)
    (request : PaymentRequest) (p : ParsedPaymentRequest) (fwd recovered : String)
    (h1 : normalizeRequest ext request = .ok p)
    (h2 : ext.getAddress cfg.forwarderAddress = some fwd)
    (h3 : ext.recover ⟨"GaslessPaymentForwarder", "1", env.chainId, fwd⟩
            ⟨p.«from», p.«to», p.amount, p.fee, env.nonce1, p.deadline⟩
            p.signature = .ok recovered)
    (h4 : toLowerCase recovered = toLowerCase p.«from») :
    executePayment ext cfg env request =
      (match (validateRequest env.val p).1 with
       | .error e =>
         (.error e, NetOp.getNetwork :: NetOp.getNonce :: (validateRequest env.val p).2)
       | .ok _ =>
         ((submitPipeline ext env).1,
          NetOp.getNetwork :: NetOp.getNonce ::
            ((validateRequest env.val p).2 ++ (submitPipeline ext env).2))) := by
  simp only [executePayment, h1, h2, h3]
  rw [if_neg (not_not_intro h4)]

theorem submitPipeline_race (ext : ExtFns) (env : LedgerEnv)
    (hsim : env.simResult = .ok ()) (hne : env.nonce2 ≠ env.nonce1) :
    submitPipeline ext env =
      (.error (.counterRaceLost env.nonce1 env.nonce2), [.staticCall, .getNonce]) := by
  simp only [submitPipeline, hsim]
  rw [if_pos hne]

theorem submitPipeline_submit_mem (ext : ExtFns) (env : LedgerEnv) (estimated : Nat)
    (hsim : env.simResult = .ok ()) (heq : env.nonce2 = env.nonce1)
    (hest : env.estimate = .ok estimated) :
    NetOp.submit (estimated * 130 / 100) ∈ (submitPipeline ext env).2 := by
  simp only [submitPipeline, hsim, hest]
  rw [if_neg (not_not_intro heq)]
  rcases env.sendResult with se | txHash
  · simp
  · rcases env.waitResult with we | receipt <;> simp

theorem isValidationRead_not_submission (op : NetOp)
    (h : op.isValidationRead = true) : op.isSubmission = false := by
  cases op <;> simp_all [NetOp.isValidationRead, NetOp.isSubmission]

theorem validateAll_ops_reads (venv : Nat → ValidationEnv) (i : Nat)
    (reqs : List ParsedPaymentRequest) :
    ∀ op ∈ (validateAll venv i reqs).2, op.isValidationRead = true := by
  induction reqs generalizing i with
  | nil => simp [validateAll]
  | cons r rest ih =>
    intro op hop
    unfold validateAll at hop
    rcases hv : (validateRequest (venv i) r).1 with e | u
    · simp only [hv] at hop
      exact validateRequest_ops_reads (venv i) r op hop
    · simp only [hv, List.mem_append] at hop
      rcases hop with hop | hop
      · exact validateRequest_ops_reads (venv i) r op hop
      · exact ih (i + 1) op hop

theorem validateAll_ok_item (venv : Nat → ValidationEnv) (i : Nat)
    (reqs : List ParsedPaymentRequest)
    (h : (validateAll venv i reqs).1 = .ok ()) :
    ∀ j (hj : j < reqs.length),
      (validateRequest (venv (i + j)) (reqs.get ⟨j, hj⟩)).1 = .ok () := by
  induction reqs generalizing i with
  | nil => intro j hj; exact absurd hj (Nat.not_lt_zero j)
  | cons r rest ih =>
    intro j hj
    unfold validateAll at h
    rcases hv : (validateRequest (venv i) r).1 with e | u
    · simp [hv] at h
    · simp only [hv] at h
      cases j with
      | zero => simpa using hv
      | succ k =>
        have := ih (i + 1) h k (Nat.lt_of_succ_lt_succ hj)
        simpa [Nat.add_assoc, Nat.add_comm 1 k] using this

theorem validateAll_sig_irrelevant (venv : Nat → ValidationEnv) (i : Nat)
    (reqs : List ParsedPaymentRequest) (f : ParsedPaymentRequest → String) :
    validateAll venv i (reqs.map (fun r => { r with signature := f r })) =
      validateAll venv i reqs := by
  induction reqs generalizing i with
  | nil => rfl
  | cons r rest ih => simp only [List.map_cons, validateAll, ih (i + 1)]; rfl

theorem executeBatchPayments_ops (benv : BatchEnv)
    (reqs : List ParsedPaymentRequest) :
    ∀ op ∈ (executeBatchPayments benv reqs).2,
      op.isValidationRead = true ∨
      op = NetOp.submitBatch (100000 * reqs.length) reqs.length ∨
      op = NetOp.waitReceipt := by
  intro op hop
  unfold executeBatchPayments at hop
  rcases hv : (validateAll benv.venv 0 reqs).1 with e | u
  · simp only [hv] at hop
    exact Or.inl (validateAll_ops_reads benv.venv 0 reqs op hop)
  · rcases hs : benv.sendResult with m | txHash
    · simp only [hv, hs, List.mem_append, List.mem_singleton] at hop
      rcases hop with hop | hop
      · exact Or.inl (validateAll_ops_reads benv.venv 0 reqs op hop)
      · exact Or.inr (Or.inl hop)
    · rcases hw : benv.waitResult with m | receipt
      all_goals simp only [hv, hs, hw, List.mem_append, List.mem_cons,
        List.mem_singleton, List.not_mem_nil, or_false] at hop
      all_goals rcases hop with hop | hop | hop
      · exact Or.inl (validateAll_ops_reads benv.venv 0 reqs op hop)
      · exact Or.inr (Or.inl hop)
      · exact Or.inr (Or.inr hop)
      · exact Or.inl (validateAll_ops_reads benv.venv 0 reqs op hop)
      · exact Or.inr (Or.inl hop)
      · exact Or.inr (Or.inr hop)

/-! ## Concrete instances used by witnesses and counterexamples -/

/-- Accumulate the value of a decimal digit string (used only to build a
concrete `parseBigInt` for witnesses). -/
def decDigitsVal : List Char → Nat → Option Nat
  | [], acc => some acc
  | c :: cs, acc =>
    if c.isDigit then decDigitsVal cs (acc * 10 + (c.toNat - 48)) else none

/-- A concrete decimal-string parser for witnesses. -/
def parseDecNat (s : String) : Option Nat :=
  match s.toList with
  | [] => none
  | l => decDigitsVal l 0

/-- Concrete externals: identity checksumming, decimal parsing, a recovery
oracle that returns the claimed sender (a valid signature), no decodable
revert data. -/
def extOk : ExtFns :=
  { getAddress := fun s => some s
    parseBigInt := parseDecNat
    recover := fun _ m _ => .ok m.«from»
    decodeError := fun _ => none }

/-- Externals whose recovery oracle returns an address different from every
claimed sender below: a signature that does not recover to the sender. -/
def extBad : ExtFns :=
  { extOk with recover := fun _ _ _ => .ok "0xB" }

/-- A 130-character signature string (the minimum length the relayer
accepts). -/
def sigA : String := String.mk (List.replicate 130 'a')

def cfg0 : RelayerConfig := ⟨"0xF"⟩

/-- Validation state of the spec's happy-path scenario: balance 100,
allowance 90, minimum fee 5, ledger time 1000, token with 2 decimals. -/
def venvOk : ValidationEnv :=
  { blockTimestamp := some 1000, localTime := 999, decimals := 2
    balance := 100, allowance := 90, minFee := 5 }

/-- The spec's happy-path request: amount 80, fee 10, deadline 2000. -/
def reqOk : PaymentRequest :=
  { «from» := "0xA", «to» := "0xC", amount := "80", fee := "10"
    deadline := 2000, signature := sigA }

/-- `reqOk` after normalization. -/
def parsedOk : ParsedPaymentRequest :=
  { «from» := "0xA", «to» := "0xC", amount := 80, fee := 10
    deadline := 2000, signature := "0x" ++ sigA }

/-- A ledger environment in which every pipeline step succeeds. -/
def envOk : LedgerEnv :=
  { chainId := 114, nonce1 := 7, val := venvOk, simResult := .ok ()
    nonce2 := 7, estimate := .ok 50000, sendResult := .ok "0xh"
    waitResult := .ok (some ⟨12, some 40000⟩), fetchTx := .ok (some ⟨"0xdd"⟩) }

/-- `envOk` with ledger time 3000, so `reqOk` (deadline 2000) is expired. -/
def envExp : LedgerEnv :=
  { envOk with val := { venvOk with blockTimestamp := some 3000 } }

/-! ## Claims -/

/-- Claim C1, amended.  The spec's expiry property holds at the validation
layer and for every authorization whose signature recovers to the claimed
sender: if `expiration ≤ ledger time`, `executePayment` fails with the
`RequestExpired` error (carrying the deadline and the ledger time), and
`validateRequest` itself never reads the signature (so validation is
signature-independent).  However — contrary to the claim's parenthetical —
when the signature does not recover to the sender, `executePayment` reports
the signature error, because signature verification runs before
`validateRequest` (see `claim1_counterexample`). -/
theorem claim1_expiry (ext : ExtFns) (cfg : RelayerConfig) (env : LedgerEnv)
    (request : PaymentRequest) (p : ParsedPaymentRequest) (fwd recovered : String)
    (h1 : normalizeRequest ext request = .ok p)
    (h2 : ext.getAddress cfg.forwarderAddress = some fwd)
    (h3 : ext.recover ⟨"GaslessPaymentForwarder", "1", env.chainId, fwd⟩
            ⟨p.«from», p.«to», p.amount, p.fee, env.nonce1, p.deadline⟩
            p.signature = .ok recovered)
    (h4 : toLowerCase recovered = toLowerCase p.«from»)
    (hexp : p.deadline ≤ env.val.blockTimestamp.getD env.val.localTime) :
    (executePayment ext cfg env request).1 =
      .error (.requestExpired p.deadline
        (env.val.blockTimestamp.getD env.val.localTime)) ∧
    ∀ s, validateRequest env.val { p with signature := s } =
      validateRequest env.val p := by
  refine ⟨?_, fun s => validateRequest_sig_irrelevant env.val p s⟩
  rw [executePayment_eq ext cfg env request p fwd recovered h1 h2 h3 h4,
      validateRequest_expired env.val p hexp]

/-- Witness for `claim1_expiry` at the concrete expired request. -/
theorem claim1_expiry_witness :
    (executePayment extOk cfg0 envExp reqOk).1 =
      .error (.requestExpired 2000 3000) :=
  (claim1_expiry extOk cfg0 envExp reqOk parsedOk "0xF" "0xA"
    rfl rfl rfl rfl (by decide)).1

/-- Claim C1 counterexample.  An authorization that is both expired
(deadline 2000 ≤ ledger time 3000) and whose signature recovers to "0xB"
rather than the claimed sender "0xA": `executePayment` reports the
signer-mismatch error, not `RequestExpired` — the claim's "even when the
supplied signature does not recover to the claimed sender, the reported
failure is RequestExpired" is false, because signature verification runs
before the expiry check. -/
theorem claim1_counterexample :
    reqOk.deadline ≤ envExp.val.blockTimestamp.getD envExp.val.localTime ∧
    (executePayment extBad cfg0 envExp reqOk).1 =
      .error (.signerMismatch "0xB" "0xA" 114 7) := by
  exact ⟨by decide, rfl⟩

/-- Claim C2.  If the replay counter re-read immediately before sending
differs from the counter used for verification and dry-run, then (under the
hypotheses that the request reached that step: normalization, signature,
validation and dry-run all succeeded) `executePayment` fails with the
counter-race error carrying both counter values, and no submit write ever
appears in the trace of issued network operations. -/
theorem claim2_counter_race (ext : ExtFns) (cfg : RelayerConfig)
    (env : LedgerEnv) (request : PaymentRequest) (p : ParsedPaymentRequest)
    (fwd recovered : String)
    (h1 : normalizeRequest ext request = .ok p)
    (h2 : ext.getAddress cfg.forwarderAddress = some fwd)
    (h3 : ext.recover ⟨"GaslessPaymentForwarder", "1", env.chainId, fwd⟩
            ⟨p.«from», p.«to», p.amount, p.fee, env.nonce1, p.deadline⟩
            p.signature = .ok recovered)
    (h4 : toLowerCase recovered = toLowerCase p.«from»)
    (hexp : env.val.blockTimestamp.getD env.val.localTime < p.deadline)
    (hbal : p.amount + p.fee ≤ env.val.balance)
    (hallow : p.amount + p.fee ≤ env.val.allowance)
    (hfee : env.val.minFee ≤ p.fee)
    (hsim : env.simResult = .ok ())
    (hne : env.nonce2 ≠ env.nonce1) :
    (executePayment ext cfg env request).1 =
      .error (.counterRaceLost env.nonce1 env.nonce2) ∧
    ∀ g, NetOp.submit g ∉ (executePayment ext cfg env request).2 := by
  simp only [executePayment_eq ext cfg env request p fwd recovered h1 h2 h3 h4,
    validateRequest_ok env.val p hexp hbal hallow hfee,
    submitPipeline_race ext env hsim hne]
  exact ⟨trivial, by intro g; simp⟩

/-- Witness for `claim2_counter_race`: the happy-path request with the
nonce re-read returning 8 instead of 7. -/
theorem claim2_witness :
    (executePayment extOk cfg0 { envOk with nonce2 := 8 } reqOk).1 =
      .error (.counterRaceLost 7 8) :=
  (claim2_counter_race extOk cfg0 { envOk with nonce2 := 8 } reqOk parsedOk
    "0xF" "0xA" rfl rfl rfl rfl (by decide) (by decide) (by decide) (by decide)
    rfl (by decide)).1

/-- Claim C3 counterexample.  With a gas estimate of E = 1 (all previous
pipeline steps succeeding), the transaction is submitted with gas ceiling
`1 * 130 / 100 = 1`, and 1 is strictly below 1.3 × 1 (as integers,
10 * 1 < 13 * 1): the claimed bound `gasLimit ≥ 1.3×E` fails for every
estimate that is not a multiple of 10, because the code floors
`estimated * 130n / 100n` in bigint arithmetic. -/
theorem claim3_counterexample :
    NetOp.submit 1 ∈
      (executePayment extOk cfg0 { envOk with estimate := .ok 1 } reqOk).2 ∧
    ¬ 13 * 1 ≤ 10 * 1 := by
  constructor
  · decide
  · decide

/-- Claim C3, amended.  Whenever gas estimation succeeds with value E (and
the pipeline reached estimation), the transaction is submitted with gas
ceiling `E * 130 / 100` — the 1.30× margin in floor (bigint) arithmetic.
This ceiling is at least E and within one unit of 1.3×E
(`13*E ≤ 10*gasLimit + 9`); it is at least 1.3×E exactly when E is a
multiple of 10, so the claim's `gasLimit ≥ 1.3×E` does not hold in
general (see `claim3_counterexample`). -/
theorem claim3_gas_margin (ext : ExtFns) (cfg : RelayerConfig)
    (env : LedgerEnv) (request : PaymentRequest) (p : ParsedPaymentRequest)
    (fwd recovered : String) (E : Nat)
    (h1 : normalizeRequest ext request = .ok p)
    (h2 : ext.getAddress cfg.forwarderAddress = some fwd)
    (h3 : ext.recover ⟨"GaslessPaymentForwarder", "1", env.chainId, fwd⟩
            ⟨p.«from», p.«to», p.amount, p.fee, env.nonce1, p.deadline⟩
            p.signature = .ok recovered)
    (h4 : toLowerCase recovered = toLowerCase p.«from»)
    (hexp : env.val.blockTimestamp.getD env.val.localTime < p.deadline)
    (hbal : p.amount + p.fee ≤ env.val.balance)
    (hallow : p.amount + p.fee ≤ env.val.allowance)
    (hfee : env.val.minFee ≤ p.fee)
    (hsim : env.simResult = .ok ())
    (heq : env.nonce2 = env.nonce1)
    (hest : env.estimate = .ok E) :
    NetOp.submit (E * 130 / 100) ∈ (executePayment ext cfg env request).2 ∧
    E ≤ E * 130 / 100 ∧
    13 * E ≤ 10 * (E * 130 / 100) + 9 := by
  refine ⟨?_, by omega, by omega⟩
  rw [executePayment_eq ext cfg env request p fwd recovered h1 h2 h3 h4,
      validateRequest_ok env.val p hexp hbal hallow hfee]
  exact List.mem_cons_of_mem _ (List.mem_cons_of_mem _
    (List.mem_append_right _ (submitPipeline_submit_mem ext env E hsim heq hest)))

/-- Witness for `claim3_gas_margin` at the happy-path estimate E = 50000:
ceiling 65000 = 50000 * 130 / 100. -/
theorem claim3_witness :
    NetOp.submit 65000 ∈ (executePayment extOk cfg0 envOk reqOk).2 ∧
    50000 ≤ 65000 ∧ 13 * 50000 ≤ 10 * 65000 + 9 :=
  claim3_gas_margin extOk cfg0 envOk reqOk parsedOk "0xF" "0xA" 50000
    rfl rfl rfl rfl (by decide) (by decide) (by decide) (by decide)
    rfl rfl rfl

/-- Claim C4.  For every normalized authorization, the signer-mismatch
failure fires iff the address recovered from the signature over the
reconstructed EIP-712 message — built with the live chain id, the
checksummed configured forwarder address, and the sender's current
on-ledger counter — differs case-insensitively from the claimed sender;
and the error carries exactly the recovered address, the expected
(claimed) address, the chain id, and the counter used. -/
theorem claim4_signer_mismatch_iff (ext : ExtFns) (cfg : RelayerConfig)
    (env : LedgerEnv) (request : PaymentRequest) (p : ParsedPaymentRequest)
    (fwd : String)
    (h1 : normalizeRequest ext request = .ok p)
    (h2 : ext.getAddress cfg.forwarderAddress = some fwd) :
    (∀ r e c n,
       (executePayment ext cfg env request).1 =
           .error (.signerMismatch r e c n) →
       ext.recover ⟨"GaslessPaymentForwarder", "1", env.chainId, fwd⟩
           ⟨p.«from», p.«to», p.amount, p.fee, env.nonce1, p.deadline⟩
           p.signature = .ok r ∧
       e = p.«from» ∧ c = env.chainId ∧ n = env.nonce1 ∧
       toLowerCase r ≠ toLowerCase p.«from») ∧
    (∀ r,
       ext.recover ⟨"GaslessPaymentForwarder", "1", env.chainId, fwd⟩
           ⟨p.«from», p.«to», p.amount, p.fee, env.nonce1, p.deadline⟩
           p.signature = .ok r →
       toLowerCase r ≠ toLowerCase p.«from» →
       (executePayment ext cfg env request).1 =
         .error (.signerMismatch r p.«from» env.chainId env.nonce1)) := by
  constructor
  · intro r e c n h
    rcases hrec : ext.recover ⟨"GaslessPaymentForwarder", "1", env.chainId, fwd⟩
        ⟨p.«from», p.«to», p.amount, p.fee, env.nonce1, p.deadline⟩
        p.signature with m | r0
    · simp only [executePayment, h1, h2, hrec] at h
      exact absurd h (by simp)
    · by_cases hm : toLowerCase r0 = toLowerCase p.«from»
      · rw [executePayment_eq ext cfg env request p fwd r0 h1 h2 hrec hm] at h
        rcases hv : (validateRequest env.val p).1 with e0 | u
        · simp only [hv, Except.error.injEq] at h
          subst h
          exact absurd hv (validateRequest_no_signerMismatch env.val p r e c n)
        · simp only [hv] at h
          exact absurd h (submitPipeline_no_signerMismatch ext env r e c n)
      · simp only [executePayment, h1, h2, hrec, if_pos hm, Except.error.injEq,
          RelayError.signerMismatch.injEq] at h
        obtain ⟨h5, h6, h7, h8⟩ := h
        subst h5; subst h6; subst h7; subst h8
        exact ⟨rfl, rfl, rfl, rfl, hm⟩
  · intro r hrec hne
    simp only [executePayment, h1, h2, hrec]
    rw [if_pos hne]

/-- Witness for `claim4_signer_mismatch_iff`: a signature recovering to
"0xB" while the claimed sender is "0xA" yields the signer-mismatch error
with the recovered address, expected address, chain id 114 and counter 7. -/
theorem claim4_witness :
    (executePayment extBad cfg0 envOk reqOk).1 =
      .error (.signerMismatch "0xB" "0xA" 114 7) :=
  (claim4_signer_mismatch_iff extBad cfg0 envOk reqOk parsedOk "0xF"
    rfl rfl).2 "0xB" rfl (by decide)

/-- Claim C5.  With the expiry check passing, validation fails with
`InsufficientBalance` exactly when the sender's balance is strictly below
`amount + fee`; the error payload is exactly (required = amount + fee,
available = balance, token decimals); the boundary `balance = amount + fee`
passes the balance check; and the rendered message reports required and
available in decimal form through `formatUnits` at the token's declared
decimals. -/
theorem claim5_insufficient_balance (env : ValidationEnv)
    (r : ParsedPaymentRequest)
    (hexp : env.blockTimestamp.getD env.localTime < r.deadline) :
    (∀ x y z,
      (validateRequest env r).1 = .error (.insufficientBalance x y z) ↔
        (env.balance < r.amount + r.fee ∧ r.amount + r.fee = x ∧
         env.balance = y ∧ env.decimals = z)) ∧
    (env.balance = r.amount + r.fee →
      ∀ x y z, (validateRequest env r).1 ≠ .error (.insufficientBalance x y z)) ∧
    errorMessage (.insufficientBalance (r.amount + r.fee) env.balance env.decimals) =
      "Insufficient FXRP balance. Required: " ++
        formatUnits (r.amount + r.fee) env.decimals ++
        ", Available: " ++ formatUnits env.balance env.decimals := by
  have base : ∀ x y z,
      (validateRequest env r).1 = .error (.insufficientBalance x y z) ↔
        (env.balance < r.amount + r.fee ∧ r.amount + r.fee = x ∧
         env.balance = y ∧ env.decimals = z) := by
    intro x y z
    unfold validateRequest
    rw [if_neg (Nat.not_le.mpr hexp)]
    by_cases hb : env.balance < r.amount + r.fee
    · rw [if_pos hb]
      simp [hb]
    · rw [if_neg hb]
      split
      · simp [hb]
      · split <;> simp [hb]
  refine ⟨base, ?_, rfl⟩
  intro hboundary x y z h
  have hlt := ((base x y z).mp h).1
  omega

/-- Witness for `claim5_insufficient_balance`: balance 89 against
amount 80 + fee 10 yields `InsufficientBalance` with required 90,
available 89, decimals 2. -/
theorem claim5_witness :
    (validateRequest { venvOk with balance := 89 } parsedOk).1 =
      .error (.insufficientBalance 90 89 2) :=
  ((claim5_insufficient_balance { venvOk with balance := 89 } parsedOk
    (by decide)).1 90 89 2).mpr ⟨by decide, rfl, rfl, rfl⟩

/-- Claim C6.  For an authorization that passed normalization, signature
verification, the expiry check and the balance check: if the allowance
granted to the forwarder is strictly below `amount + fee`, `executePayment`
fails with `InsufficientAllowance` reporting required = amount + fee, and
the operation trace contains no dry-run (`staticCall`), no gas estimation
and no submission write; if instead `amount + fee ≤ allowance` (which
includes the boundary `allowance = amount + fee`), the result is never
`InsufficientAllowance`. -/
theorem claim6_insufficient_allowance (ext : ExtFns) (cfg : RelayerConfig)
    (env : LedgerEnv) (request : PaymentRequest) (p : ParsedPaymentRequest)
    (fwd recovered : String)
    (h1 : normalizeRequest ext request = .ok p)
    (h2 : ext.getAddress cfg.forwarderAddress = some fwd)
    (h3 : ext.recover ⟨"GaslessPaymentForwarder", "1", env.chainId, fwd⟩
            ⟨p.«from», p.«to», p.amount, p.fee, env.nonce1, p.deadline⟩
            p.signature = .ok recovered)
    (h4 : toLowerCase recovered = toLowerCase p.«from»)
    (hexp : env.val.blockTimestamp.getD env.val.localTime < p.deadline)
    (hbal : p.amount + p.fee ≤ env.val.balance) :
    (env.val.allowance < p.amount + p.fee →
       (executePayment ext cfg env request).1 =
         .error (.insufficientAllowance (p.amount + p.fee) env.val.allowance
           env.val.decimals) ∧
       NetOp.staticCall ∉ (executePayment ext cfg env request).2 ∧
       NetOp.estimateGas ∉ (executePayment ext cfg env request).2 ∧
       (∀ g, NetOp.submit g ∉ (executePayment ext cfg env request).2) ∧
       (∀ g n, NetOp.submitBatch g n ∉ (executePayment ext cfg env request).2)) ∧
    (p.amount + p.fee ≤ env.val.allowance →
       ∀ x y z, (executePayment ext cfg env request).1 ≠
         .error (.insufficientAllowance x y z)) := by
  have hE := executePayment_eq ext cfg env request p fwd recovered h1 h2 h3 h4
  constructor
  · intro hallow
    simp only [hE, validateRequest_allowance_fail env.val p hexp hbal hallow]
    refine ⟨trivial, by simp, by simp, by intro g; simp, by intro g n; simp⟩
  · intro hge x y z h
    rw [hE] at h
    rcases hv : (validateRequest env.val p).1 with e0 | u
    · simp only [hv, Except.error.injEq] at h
      subst h
      exact absurd hv
        (validateRequest_no_insufficientAllowance_of_ge env.val p hge x y z)
    · simp only [hv] at h
      exact absurd h (submitPipeline_no_insufficientAllowance ext env x y z)

/-- Witness for `claim6_insufficient_allowance`: the spec's scenario with
allowance 85 against amount 80 + fee 10 — `InsufficientAllowance` with
required 90 reported, and no dry-run or submission attempted. -/
theorem claim6_witness :
    (executePayment extOk cfg0
        { envOk with val := { venvOk with allowance := 85 } } reqOk).1 =
      .error (.insufficientAllowance 90 85 2) ∧
    NetOp.staticCall ∉
      (executePayment extOk cfg0
        { envOk with val := { venvOk with allowance := 85 } } reqOk).2 :=
  have h := (claim6_insufficient_allowance extOk cfg0
    { envOk with val := { venvOk with allowance := 85 } } reqOk parsedOk
    "0xF" "0xA" rfl rfl rfl rfl (by decide) (by decide)).1 (by decide)
  ⟨h.1, h.2.1⟩

/-- Claim C7.  When every batch item passes validation and send and wait
succeed, `executeBatchPayments` submits all items as ONE transaction: its
trace contains the single batch submission with gas ceiling
`100000 * n` (the fixed per-item allowance times the item count), exactly
one submission write overall, no per-item dry-run (`staticCall`) and no gas
estimation, and its result reports `paymentsProcessed = n`, the number of
items submitted. -/
theorem claim7_batch (benv : BatchEnv) (reqs : List ParsedPaymentRequest)
    (txHash : String) (receipt : Option Receipt)
    (hval : (validateAll benv.venv 0 reqs).1 = .ok ())
    (hsend : benv.sendResult = .ok txHash)
    (hwait : benv.waitResult = .ok receipt) :
    (executeBatchPayments benv reqs).1 =
      .ok ⟨true, txHash, receipt.map Receipt.blockNumber, gasUsedString receipt,
           reqs.length⟩ ∧
    NetOp.submitBatch (100000 * reqs.length) reqs.length ∈
      (executeBatchPayments benv reqs).2 ∧
    ((executeBatchPayments benv reqs).2.countP NetOp.isSubmission) = 1 ∧
    NetOp.staticCall ∉ (executeBatchPayments benv reqs).2 ∧
    NetOp.estimateGas ∉ (executeBatchPayments benv reqs).2 := by
  have hbatch : executeBatchPayments benv reqs =
      (.ok ⟨true, txHash, receipt.map Receipt.blockNumber, gasUsedString receipt,
            reqs.length⟩,
       (validateAll benv.venv 0 reqs).2 ++
         [.submitBatch (100000 * reqs.length) reqs.length, .waitReceipt]) := by
    simp only [executeBatchPayments, hval, hsend, hwait]
  rw [hbatch]
  have hreads := validateAll_ops_reads benv.venv 0 reqs
  refine ⟨rfl, by simp, ?_, ?_, ?_⟩
  · rw [List.countP_append]
    have h0 : (validateAll benv.venv 0 reqs).2.countP NetOp.isSubmission = 0 :=
      List.countP_eq_zero.mpr (fun op hop => by
        simp [isValidationRead_not_submission op (hreads op hop)])
    rw [h0]
    rfl
  · simp only [List.mem_append]
    rintro (hmem | hmem)
    · have := hreads _ hmem
      simp [NetOp.isValidationRead] at this
    · simp at hmem
  · simp only [List.mem_append]
    rintro (hmem | hmem)
    · have := hreads _ hmem
      simp [NetOp.isValidationRead] at this
    · simp at hmem

/-- Witness for `claim7_batch`: three copies of the valid item submitted
together — one result with paymentsProcessed = 3 and one batch submission
with ceiling 300000 = 3 × 100000. -/
theorem claim7_witness :
    (executeBatchPayments ⟨fun _ => venvOk, .ok "0xh", .ok (some ⟨12, some 40000⟩)⟩
        [parsedOk, parsedOk, parsedOk]).1 =
      .ok ⟨true, "0xh", some 12, "40000", 3⟩ ∧
    NetOp.submitBatch 300000 3 ∈
      (executeBatchPayments ⟨fun _ => venvOk, .ok "0xh", .ok (some ⟨12, some 40000⟩)⟩
        [parsedOk, parsedOk, parsedOk]).2 :=
  have h := claim7_batch ⟨fun _ => venvOk, .ok "0xh", .ok (some ⟨12, some 40000⟩)⟩
    [parsedOk, parsedOk, parsedOk] "0xh" (some ⟨12, some 40000⟩) rfl rfl rfl
  ⟨h.1, h.2.1⟩

/-- Claim C8.  If any field of the raw request cannot be parsed (invalid
from/to address, non-integer amount or fee) or the signature is shorter
than 130 characters, `executePayment` fails with no network operation
issued at all: the trace is empty. -/
theorem claim8_malformed (ext : ExtFns) (cfg : RelayerConfig) (env : LedgerEnv)
    (request : PaymentRequest)
    (h : ext.getAddress request.«from» = none ∨
         ext.getAddress request.«to» = none ∨
         ext.parseBigInt request.amount = none ∨
         ext.parseBigInt request.fee = none ∨
         request.signature.length < 130) :
    ∃ m, executePayment ext cfg env request =
      (.error (.malformedRequest m), []) := by
  have key : ∃ m, normalizeRequest ext request = .error (.malformedRequest m) := by
    unfold normalizeRequest
    cases hfrom : ext.getAddress request.«from» with
    | none => exact ⟨_, rfl⟩
    | some f =>
      cases hto : ext.getAddress request.«to» with
      | none => exact ⟨_, rfl⟩
      | some t =>
        cases ham : ext.parseBigInt request.amount with
        | none => exact ⟨_, rfl⟩
        | some a =>
          cases hfee : ext.parseBigInt request.fee with
          | none => exact ⟨_, rfl⟩
          | some fe =>
            have hsig : request.signature.length < 130 := by
              rcases h with h | h | h | h | h <;> simp_all
            exact ⟨"Invalid signature: must be a hex string", by simp [hsig]⟩
  obtain ⟨m, hm⟩ := key
  exact ⟨m, by simp only [executePayment, hm]⟩

/-- Witness for `claim8_malformed`: a request whose amount "eighty" is not
a decimal integer fails with an empty operation trace. -/
theorem claim8_witness :
    ∃ m, executePayment extOk cfg0 envOk { reqOk with amount := "eighty" } =
      (.error (.malformedRequest m), []) :=
  claim8_malformed extOk cfg0 envOk { reqOk with amount := "eighty" }
    (Or.inr (Or.inr (Or.inl (by decide))))

/-- Claim C9.  The failure diagnoser produces the most specific reason by
precedence: (a) the structured error name carried on the failure, else (b)
a successful decode of 0x-prefixed raw revert data against the forwarder's
error catalog, else (c) the raw message — a failed or inapplicable decode
degrades to the raw message; and `enrichRevertErrorAsync` never escalates a
failed fetch of the transaction by hash: on a fetch failure the produced
text is exactly the parsed reason (which defaults to the raw message)
wrapped with the phase and the explorer hint, so the original failure is
never replaced or hidden. -/
theorem claim9_diagnoser :
    (∀ (dec : String → Option String) (e : JsError) (n : String),
       e.revertName = some n →
       parseRevertReason dec e = "Contract reverted: " ++ n) ∧
    (∀ (dec : String → Option String) (e : JsError) (d n : String),
       e.revertName = none → e.data = some d → strStartsWith d "0x" = true →
       dec d = some n →
       parseRevertReason dec e = "Contract reverted: " ++ n) ∧
    (∀ (dec : String → Option String) (e : JsError) (d : String),
       e.revertName = none → e.data = some d → dec d = none →
       parseRevertReason dec e = e.message) ∧
    (∀ (dec : String → Option String) (e : JsError),
       e.revertName = none → e.data = none →
       parseRevertReason dec e = e.message) ∧
    (∀ (dec : String → Option String) (fetchMsg : String) (e : JsError)
       (phase txHash : String),
       enrichRevertErrorAsync dec (.error fetchMsg) e phase txHash =
         phase ++ " failed: " ++ parseRevertReason dec e ++
           " Inspect tx: https://coston2-explorer.flare.network/tx/" ++ txHash) := by
  refine ⟨?_, ?_, ?_, ?_, ?_⟩
  · intro dec e n h
    simp [parseRevertReason, h]
  · intro dec e d n h1 h2 h3 h4
    simp [parseRevertReason, h1, h2, h3, h4]
  · intro dec e d h1 h2 h3
    cases hsw : strStartsWith d "0x" <;>
      simp [parseRevertReason, h1, h2, h3, hsw]
  · intro dec e h1 h2
    simp [parseRevertReason, h1, h2]
  · intro dec fetchMsg e phase txHash
    rfl

/-- Witness for `claim9_diagnoser`: a failure carrying the structured name
"InvalidSignature" is reported as that name even when the decoder would
decode its raw data differently, and a failed transaction fetch leaves the
parsed reason intact. -/
theorem claim9_witness :
    parseRevertReason (fun _ => some "Other")
      ⟨"raw msg", none, some "0xdead", some "InvalidSignature"⟩ =
      "Contract reverted: InvalidSignature" ∧
    enrichRevertErrorAsync (fun _ => none) (.error "rpc down")
      ⟨"raw msg", none, none, none⟩ "transaction" "0xh" =
      "transaction failed: raw msg Inspect tx: https://coston2-explorer.flare.network/tx/0xh" :=
  ⟨claim9_diagnoser.1 (fun _ => some "Other")
      ⟨"raw msg", none, some "0xdead", some "InvalidSignature"⟩
      "InvalidSignature" rfl,
   claim9_diagnoser.2.2.2.2 (fun _ => none) "rpc down"
      ⟨"raw msg", none, none, none⟩ "transaction" "0xh"⟩

/-- Claim C10.  `executeBatchPayments` re-runs the ledger-state validation
on every item (when the loop succeeds, every item individually validated
ok) and stops with the first item's error before any submission write; it
performs no per-item dry-run (`staticCall` never appears in its trace), no
gas estimation, and no replay-counter read (`getNonce` never appears, so
there is no race recheck); and it performs no signature verification at
all: replacing every item's signature arbitrarily changes neither the
result nor the trace, so an invalid signature in a batch can only be
detected by the ledger at execution time. -/
theorem claim10_batch_validation (benv : BatchEnv)
    (reqs : List ParsedPaymentRequest) :
    (∀ e, (validateAll benv.venv 0 reqs).1 = .error e →
       (executeBatchPayments benv reqs).1 = .error e ∧
       (∀ g n, NetOp.submitBatch g n ∉ (executeBatchPayments benv reqs).2) ∧
       (∀ g, NetOp.submit g ∉ (executeBatchPayments benv reqs).2)) ∧
    ((validateAll benv.venv 0 reqs).1 = .ok () →
       ∀ j (hj : j < reqs.length),
         (validateRequest (benv.venv j) (reqs.get ⟨j, hj⟩)).1 = .ok ()) ∧
    NetOp.staticCall ∉ (executeBatchPayments benv reqs).2 ∧
    NetOp.estimateGas ∉ (executeBatchPayments benv reqs).2 ∧
    NetOp.getNonce ∉ (executeBatchPayments benv reqs).2 ∧
    (∀ f : ParsedPaymentRequest → String,
       executeBatchPayments benv
           (reqs.map (fun r => { r with signature := f r })) =
         executeBatchPayments benv reqs) := by
  refine ⟨?_, ?_, ?_, ?_, ?_, ?_⟩
  · intro e he
    have hres : executeBatchPayments benv reqs =
        (.error e, (validateAll benv.venv 0 reqs).2) := by
      simp only [executeBatchPayments, he]
    rw [hres]
    refine ⟨rfl, ?_, ?_⟩
    · intro g n hmem
      have := validateAll_ops_reads benv.venv 0 reqs _ hmem
      simp [NetOp.isValidationRead] at this
    · intro g hmem
      have := validateAll_ops_reads benv.venv 0 reqs _ hmem
      simp [NetOp.isValidationRead] at this
  · intro h j hj
    have := validateAll_ok_item benv.venv 0 reqs h j hj
    simpa using this
  · intro hmem
    rcases executeBatchPayments_ops benv reqs _ hmem with h | h | h <;>
      simp [NetOp.isValidationRead] at h
  · intro hmem
    rcases executeBatchPayments_ops benv reqs _ hmem with h | h | h <;>
      simp [NetOp.isValidationRead] at h
  · intro hmem
    rcases executeBatchPayments_ops benv reqs _ hmem with h | h | h <;>
      simp [NetOp.isValidationRead] at h
  · intro f
    simp only [executeBatchPayments, validateAll_sig_irrelevant, List.length_map]

/-- Witness for `claim10_batch_validation`: with an expired item the batch
fails with that item's error and never submits; and the batch trace never
contains a dry-run. -/
theorem claim10_witness :
    (executeBatchPayments
        ⟨fun _ => { venvOk with blockTimestamp := some 3000 }, .ok "0xh",
         .ok (some ⟨12, some 40000⟩)⟩ [parsedOk]).1 =
      .error (.requestExpired 2000 3000) ∧
    NetOp.staticCall ∉
      (executeBatchPayments
        ⟨fun _ => { venvOk with blockTimestamp := some 3000 }, .ok "0xh",
         .ok (some ⟨12, some 40000⟩)⟩ [parsedOk]).2 :=
  have h := claim10_batch_validation
    ⟨fun _ => { venvOk with blockTimestamp := some 3000 }, .ok "0xh",
     .ok (some ⟨12, some 40000⟩)⟩ [parsedOk]
  ⟨(h.1 (.requestExpired 2000 3000) rfl).1, h.2.2.1⟩
